import Mathlib

set_option maxHeartbeats 1000000
set_option maxRecDepth 8000

namespace YTS

/-!
Shallow embedding of `src/youtubesummary/youtube_summary.py` and
`src/mcp_wrapper.py`.  Raw strings handled character by character are
modelled as `List Char`; CPython's `urllib.parse.urlsplit` network-location
extraction and the two `re` patterns of `extract_video_id` are modelled
explicitly.  External collaborators (the transcript service, the LiteLLM
completion call, the filesystem write) are oracle parameters.
-/

/-- Python `str.strip` whitespace, ASCII part (space, \t, \n, \x0b, \x0c, \r). -/
def isPySpace (c : Char) : Bool :=
  decide (c.toNat = 32 ∨ c.toNat = 9 ∨ c.toNat = 10 ∨ c.toNat = 11 ∨
    c.toNat = 12 ∨ c.toNat = 13)

/-- `url.strip()` : drop leading and trailing whitespace. -/
def pyStrip (s : List Char) : List Char :=
  ((s.dropWhile isPySpace).reverse.dropWhile isPySpace).reverse

/-- The regex character class `[a-zA-Z0-9_-]`
(codes: a-z 97..122, A-Z 65..90, 0-9 48..57, `_` 95, `-` 45). -/
def isIdChar (c : Char) : Bool :=
  decide ((97 ≤ c.toNat ∧ c.toNat ≤ 122) ∨ (65 ≤ c.toNat ∧ c.toNat ≤ 90) ∨
    (48 ≤ c.toNat ∧ c.toNat ≤ 57) ∨ c.toNat = 95 ∨ c.toNat = 45)

/-- `re.match(r"^[a-zA-Z0-9_-]{11}$", s)` succeeds. -/
def isValidId (s : List Char) : Bool :=
  decide (s.length = 11) && s.all isIdChar

/-- Characters allowed in a URL scheme (`scheme_chars` of `urllib.parse`). -/
def isSchemeChar (c : Char) : Bool :=
  decide ((97 ≤ c.toNat ∧ c.toNat ≤ 122) ∨ (65 ≤ c.toNat ∧ c.toNat ≤ 90) ∨
    (48 ≤ c.toNat ∧ c.toNat ≤ 57) ∨ c.toNat = 43 ∨ c.toNat = 45 ∨ c.toNat = 46)

/-- ASCII letter. -/
def isAsciiAlpha (c : Char) : Bool :=
  decide ((97 ≤ c.toNat ∧ c.toNat ≤ 122) ∨ (65 ≤ c.toNat ∧ c.toNat ≤ 90))

/-- `urlsplit` first strips C0-control-or-space characters at both ends. -/
def stripC0 (s : List Char) : List Char :=
  ((s.dropWhile (fun c => decide (c.toNat ≤ 32))).reverse.dropWhile
    (fun c => decide (c.toNat ≤ 32))).reverse

/-- `urlsplit` removes every tab, carriage return and line feed. -/
def removeUnsafe (s : List Char) : List Char :=
  s.filter (fun c => decide (c ≠ '\t' ∧ c ≠ '\r' ∧ c ≠ '\n'))

/-- Drop a leading `scheme:` when the prefix before the first colon is a
non-empty run of scheme characters beginning with an ASCII letter. -/
def dropScheme (s : List Char) : List Char :=
  let pre := s.takeWhile (fun c => decide (c ≠ ':'))
  if pre.length < s.length then
    if h : pre = [] then s
    else if isAsciiAlpha (pre.head h) && pre.all isSchemeChar then
      s.drop (pre.length + 1)
    else s
  else s

/-- Model of `urllib.parse.urlparse(s).netloc`: `some nl` is a normal return,
`none` is the `ValueError` raised on an unbalanced bracket in the netloc
(caught by `except Exception: pass` in `extract_video_id`). -/
def netlocOf (s : List Char) : Option (List Char) :=
  let rest := dropScheme (removeUnsafe (stripC0 s))
  if rest.take 2 = [ '/', '/' ] then
    let nl := (rest.drop 2).takeWhile (fun c => decide (c ≠ '/' ∧ c ≠ '?' ∧ c ≠ '#'))
    if ('[' ∈ nl ∧ ']' ∉ nl) ∨ (']' ∈ nl ∧ '[' ∉ nl) then none
    else some nl
  else some []

/-- `valid_domains` of `extract_video_id`. -/
def validDomains : List (List Char) :=
  [ "youtube.com".data, "youtu.be".data, "www.youtube.com".data, "m.youtube.com".data ]

/-- Does `lit` occur at the head of `s`? -/
def startsWithCL : List Char → List Char → Bool
  | [], _ => true
  | _ :: _, [] => false
  | a :: as, b :: bs => if a = b then startsWithCL as bs else false

/-- Attempt of one literal alternative at the current position: the literal
followed by exactly eleven identifier-class characters (capture group 1). -/
def tryLit (lit s : List Char) : Option (List Char) :=
  if startsWithCL lit s then
    let cand := (s.drop lit.length).take 11
    if isValidId cand then some cand else none
  else none

/-- Try the alternatives of the alternation, in source order, at one position. -/
def tryAlts : List (List Char) → List Char → Option (List Char)
  | [], _ => none
  | lit :: more, s =>
    match tryLit lit s with
    | some v => some v
    | none => tryAlts more s

/-- `re.search`: leftmost position at which the pattern matches. -/
def reSearch (alts : List (List Char)) : List Char → Option (List Char)
  | [] => none
  | c :: rest =>
    match tryAlts alts (c :: rest) with
    | some v => some v
    | none => reSearch alts rest

/-- Alternatives of the first pattern
`(?:youtube\.com/watch\?v=|youtu\.be/|youtube\.com/embed/)([a-zA-Z0-9_-]{11})`. -/
def pat1Alts : List (List Char) :=
  [ "youtube.com/watch?v=".data, "youtu.be/".data, "youtube.com/embed/".data ]

/-- Alternative of the second pattern `youtube\.com/v/([a-zA-Z0-9_-]{11})`. -/
def pat2Alts : List (List Char) :=
  [ "youtube.com/v/".data ]

/-- Final fallback of `extract_video_id`: the whole (stripped) input is an id. -/
def bareIdCheck (u : List Char) : Option (List Char) :=
  if isValidId u then some u else none

/-- Second pattern of the loop, then the bare-id fallback. -/
def afterPat1 (u : List Char) : Option (List Char) :=
  match reSearch pat2Alts u with
  | some v => if isValidId v then some v else bareIdCheck u
  | none => bareIdCheck u

/-- The `for pattern in patterns` loop of `extract_video_id`, then fallback. -/
def patternScan (u : List Char) : Option (List Char) :=
  match reSearch pat1Alts u with
  | some v => if isValidId v then some v else afterPat1 u
  | none => afterPat1 u

/-- The domain allow-list check: reject when the parsed netloc is non-empty,
not allow-listed, and contains a dot. -/
def rejectByDomain (u : List Char) : Bool :=
  match netlocOf u with
  | none => false
  | some nl => decide (nl ≠ [] ∧ nl ∉ validDomains ∧ '.' ∈ nl)

/-- `extract_video_id` of `youtube_summary.py`. -/
def extractVideoId (url : List Char) : Option (List Char) :=
  if url = [] then none
  else
    let u := pyStrip url
    if rejectByDomain u then none else patternScan u

/-- Characters replaced by `_` in `sanitize_filename`. -/
def dangerousChars : List Char :=
  [ '<', '>', ':', '"', '|', '?', '*', '\x00' ]

/-- The chain of `str.replace` calls of `sanitize_filename`; `_` is never
itself dangerous, so the successive global replacements equal one map. -/
def replaceDangerous (s : List Char) : List Char :=
  s.map (fun c => if c ∈ dangerousChars then '_' else c)

/-- POSIX `os.path.basename`: everything after the last `/`. -/
def basenameCL (s : List Char) : List Char :=
  (s.reverse.takeWhile (fun c => decide (c ≠ '/'))).reverse

/-- `filename.endswith(".md")`, via the reversed suffix `d m .`. -/
def endsMd (s : List Char) : Bool :=
  startsWithCL [ 'd', 'm', '.' ] s.reverse

/-- Steps 1–3 of `sanitize_filename`: basename, character replacement,
forced `.md` suffix. -/
def sanitizeBase (f : List Char) : List Char :=
  let f2 := replaceDangerous (basenameCL f)
  if endsMd f2 then f2 else f2 ++ ".md".data

/-- `sanitize_filename` of `youtube_summary.py`: empty-name default,
steps 1–3, then the 255-character cap (`filename[:-3][:250] + ".md"`). -/
def sanitize_filename (f : List Char) : List Char :=
  if f = [] then "transcript.md".data
  else if 255 < (sanitizeBase f).length then
    (((sanitizeBase f).take ((sanitizeBase f).length - 3)).take 250) ++ ".md".data
  else sanitizeBase f

/-- Split a POSIX path string on `/` into components. -/
def splitSlash : List Char → List (List Char)
  | [] => [ [] ]
  | c :: rest =>
    match splitSlash rest with
    | [] => [ [] ]
    | h :: t => if c = '/' then [] :: h :: t else (c :: h) :: t

/-- One step of POSIX path resolution over a resolved absolute base:
empty and `.` components are skipped, `..` pops, others push. -/
def resolveStep (acc : List (List Char)) (comp : List Char) : List (List Char) :=
  if comp = [] then acc
  else if comp = ".".data then acc
  else if comp = "..".data then acc.dropLast
  else acc ++ [ comp ]

/-- `Path(name).resolve()` for a relative `name`, against resolved cwd
components (symlinks out of scope). -/
def resolvePath (cwd : List (List Char)) (name : List Char) : List (List Char) :=
  (splitSlash name).foldl resolveStep cwd

/-- Is the first component list an initial segment of the second?
(`safe_path.relative_to(current_dir)` succeeds exactly then.) -/
def isPrefixLL : List (List Char) → List (List Char) → Bool
  | [], _ => true
  | _ :: _, [] => false
  | a :: as, b :: bs => if a = b then isPrefixLL as bs else false

/-- Outcome of `save_to_markdown`: the path the write was attempted at
(`none` when the confinement check refused), and the success flag. -/
structure SaveOutcome where
  attempted : Option (List (List Char))
  success : Bool
deriving DecidableEq

/-- The confinement check and write of `save_to_markdown`; `writeOk` is the
filesystem oracle for the `open`/`write` succeeding. -/
def writeGate (cwd : List (List Char)) (writeOk : Bool) (name : List Char) :
    SaveOutcome :=
  let p := resolvePath cwd name
  if isPrefixLL cwd p then ⟨some p, writeOk⟩ else ⟨none, false⟩

/-- `save_to_markdown` of `youtube_summary.py` (document content is not
needed by any claim and is omitted; the unused arguments keep the
source signature). -/
def save_to_markdown (cwd : List (List Char)) (writeOk : Bool)
    (_transcript _summary : String) (output_file : String)
    (_video_url : String) (_model_name : Option String) : SaveOutcome :=
  writeGate cwd writeOk (sanitize_filename output_file.data)

/-- `" ".join(items)`. -/
def joinSpace : List String → String
  | [] => ""
  | [x] => x
  | x :: y :: rest => x ++ " " ++ joinSpace (y :: rest)

/-- `get_transcript`: the transcript-service oracle either raises (`none`)
or returns the ordered segment texts, which are flattened with spaces. -/
def get_transcript (svcResult : Option (List String)) : Option String :=
  match svcResult with
  | none => none
  | some items => some (joinSpace items)

/-- Text of the prompt template before the embedded transcript. -/
def promptPre : String :=
  "Please provide a summary of this YouTube video transcript. \n        Focus on the main points, key insights, and actionable takeaways.\n        \n        Transcript:\n        "

/-- Text of the prompt template after the embedded transcript. -/
def promptPost : String :=
  "\n        \n        Please format your response as a clear, well-structured summary."

/-- The truncation policy of `generate_summary` (`max_transcript_length = 8000`). -/
def truncateTranscript (t : String) : String :=
  if 8000 < t.length then String.mk (t.data.take 8000) ++ "..." else t

/-- The request `generate_summary` hands to `litellm.completion`. -/
structure LLMCall where
  model : String
  messages : List (String × String)
  max_tokens : Nat
deriving DecidableEq

/-- `generate_summary` of `youtube_summary.py`: builds the prompt from the
(possibly truncated) transcript and calls the generation oracle; the call
made is returned alongside so theorems can speak about what was sent. -/
def generate_summary (llm : LLMCall → Option String) (transcript model : String) :
    Option String × LLMCall :=
  let call : LLMCall :=
    ⟨model, [ ("user", promptPre ++ truncateTranscript transcript ++ promptPost) ], 1000⟩
  (llm call, call)

/-- Default model name of both front-ends. -/
def defaultModel : String := "claude-sonnet-4-20250514"

/-- Arguments object of the `youtube_summary` tool (`args.get` misses are `none`). -/
structure ToolArgs where
  url : Option String
  model : Option String
  output_file : Option String
  save_to_file : Option Bool
deriving DecidableEq

/-- The `result` dict `_youtube_summary` builds on success; the two optional
fields are present only when a save was requested resp. succeeded. -/
structure SummaryResult where
  video_id : String
  video_url : String
  transcript : String
  summary : String
  model_used : String
  saved_to_file : Option Bool
  output_file : Option String
deriving DecidableEq

/-- Execution record of one `_youtube_summary` run: its outcome plus which
stages were entered and where a write was attempted. -/
structure MCPTrace where
  outcome : Except String SummaryResult
  fetchCalled : Bool
  genCalled : Bool
  saveCalled : Bool
  savePath : Option (List (List Char))

/-- Python truthiness test `not x` for an optional string. -/
def falsyS (o : Option String) : Bool :=
  match o with
  | none => true
  | some s => s.isEmpty

/-- Python truthiness test `not x` for an optional char list. -/
def falsyL (o : Option (List Char)) : Bool :=
  match o with
  | none => true
  | some l => l.isEmpty

/-- `MCPWrapper._youtube_summary` of `mcp_wrapper.py`. -/
def youtube_summary (cwd : List (List Char))
    (svc : List Char → Option (List String)) (llm : LLMCall → Option String)
    (writeOk : Bool) (args : ToolArgs) : MCPTrace :=
  let url := args.url.getD ""
  let model := args.model.getD defaultModel
  let output_file := args.output_file.getD "transcript.md"
  let save := args.save_to_file.getD false
  if url.isEmpty then ⟨.error "URL is required", false, false, false, none⟩
  else
    let vidO := extractVideoId url.data
    if falsyL vidO then
      ⟨.error "Invalid YouTube URL or video ID", false, false, false, none⟩
    else
      let vid := vidO.getD []
      let tO := get_transcript (svc vid)
      if falsyS tO then
        ⟨.error "Failed to download transcript", true, false, false, none⟩
      else
        let ts := tO.getD ""
        let sO := (generate_summary llm ts model).1
        if falsyS sO then
          ⟨.error "Failed to generate summary", true, true, false, none⟩
        else
          let sm := sO.getD ""
          if save then
            let so := save_to_markdown cwd writeOk ts sm output_file url (some model)
            ⟨.ok ⟨String.mk vid, url, ts, sm, model, some so.success,
                if so.success then some output_file else none⟩,
              true, true, true, so.attempted⟩
          else
            ⟨.ok ⟨String.mk vid, url, ts, sm, model, none, none⟩,
              true, true, false, none⟩

/-- Execution record of one CLI `main` run. -/
structure CliTrace where
  exitCode : Nat
  errMsg : Option String
  fetchCalled : Bool
  genCalled : Bool
  saveCalled : Bool
deriving DecidableEq

/-- `main` of `youtube_summary.py`: `urlArg` is the positional argument,
`stdinLine` the interactive answer read when it is missing or empty. -/
def cliMain (cwd : List (List Char)) (svc : List Char → Option (List String))
    (llm : LLMCall → Option String) (writeOk : Bool)
    (urlArg : Option String) (stdinLine : String) (output model : String) :
    CliTrace :=
  let url := match urlArg with
    | some u => if u.isEmpty then String.mk (pyStrip stdinLine.data) else u
    | none => String.mk (pyStrip stdinLine.data)
  if url.isEmpty then ⟨1, some "Error: No YouTube URL provided", false, false, false⟩
  else
    let vidO := extractVideoId url.data
    if falsyL vidO then
      ⟨1, some "Error: Invalid YouTube URL or video ID", false, false, false⟩
    else
      let vid := vidO.getD []
      let tO := get_transcript (svc vid)
      if falsyS tO then ⟨1, some "Failed to download transcript", true, false, false⟩
      else
        let ts := tO.getD ""
        let sO := (generate_summary llm ts model).1
        if falsyS sO then ⟨1, some "Failed to generate summary", true, true, false⟩
        else
          let sm := sO.getD ""
          let so := save_to_markdown cwd writeOk ts sm output url (some model)
          if so.success then ⟨0, none, true, true, true⟩
          else ⟨1, none, true, true, true⟩

/-- Parameters object of a `tools/call` request. -/
structure RpcParams where
  name : Option String
  arguments : ToolArgs
deriving DecidableEq

/-- A parsed JSON-RPC request line (fields read via `.get`). -/
structure RpcRequest where
  id : Option Int
  method : Option String
  params : RpcParams
deriving DecidableEq

/-- One input line of the server loop: either `json.loads` raises, or a request. -/
inductive RpcLine where
  | malformed
  | parsed (req : RpcRequest)

/-- What `call_tool` returns: a tool result or a tool-level error object. -/
inductive ToolOutcome where
  | ok (r : SummaryResult)
  | toolError (msg : String)
deriving DecidableEq

/-- `MCPWrapper.call_tool`. -/
def call_tool (cwd : List (List Char)) (svc : List Char → Option (List String))
    (llm : LLMCall → Option String) (writeOk : Bool)
    (name : Option String) (arguments : ToolArgs) : ToolOutcome :=
  match name with
  | some n =>
    if n = "youtube_summary" then
      match (youtube_summary cwd svc llm writeOk arguments).outcome with
      | .ok r => .ok r
      | .error e => .toolError e
    else .toolError ("Unknown tool: " ++ n)
  | none => .toolError "Unknown tool: None"

/-- Payload of one emitted response line. -/
inductive RpcPayload where
  | toolsListResult
  | callResult (t : ToolOutcome)
  | rpcError (code : Int) (msg : String)
deriving DecidableEq

/-- One emitted JSON-RPC response object. -/
structure RpcResponse where
  id : Option Int
  payload : RpcPayload
deriving DecidableEq

/-- The body of the `for line in sys.stdin` loop of `mcp_wrapper.main`. -/
def serverStep (cwd : List (List Char)) (svc : List Char → Option (List String))
    (llm : LLMCall → Option String) (writeOk : Bool) : RpcLine → RpcResponse
  | .malformed => ⟨none, .rpcError (-32700) "Parse error"⟩
  | .parsed req =>
    if req.method = some "tools/list" then ⟨req.id, .toolsListResult⟩
    else if req.method = some "tools/call" then
      ⟨req.id, .callResult
        (call_tool cwd svc llm writeOk req.params.name req.params.arguments)⟩
    else ⟨req.id, .rpcError (-32601) "Method not found"⟩

/-- The whole server loop: one response per input line, in order. -/
def serverRun (cwd : List (List Char)) (svc : List Char → Option (List String))
    (llm : LLMCall → Option String) (writeOk : Bool)
    (lines : List RpcLine) : List RpcResponse :=
  lines.map (serverStep cwd svc llm writeOk)

/-! ### Generic list helpers -/

theorem takeWhile_of_all {α : Type} {p : α → Bool} {l : List α}
    (h : ∀ c ∈ l, p c = true) : l.takeWhile p = l := by
  induction l with
  | nil => rfl
  | cons a as ih =>
    rw [List.takeWhile_cons, if_pos (h a (by simp))]
    rw [ih (fun c hc => h c (by simp [hc]))]

theorem dropWhile_of_none {α : Type} {p : α → Bool} {l : List α}
    (h : ∀ c ∈ l, p c = false) : l.dropWhile p = l := by
  cases l with
  | nil => rfl
  | cons a as =>
    rw [List.dropWhile_cons]
    simp [h a (by simp)]

theorem filter_of_all {α : Type} {p : α → Bool} {l : List α}
    (h : ∀ c ∈ l, p c = true) : l.filter p = l := by
  induction l with
  | nil => rfl
  | cons a as ih =>
    rw [List.filter_cons, if_pos (h a (by simp))]
    rw [ih (fun c hc => h c (by simp [hc]))]

theorem map_of_id {α : Type} {f : α → α} {l : List α}
    (h : ∀ c ∈ l, f c = c) : l.map f = l := by
  induction l with
  | nil => rfl
  | cons a as ih =>
    rw [List.map_cons, h a (by simp), ih (fun c hc => h c (by simp [hc]))]

theorem takeWhile_pred {α : Type} {p : α → Bool} :
    ∀ {l : List α} {a : α}, a ∈ l.takeWhile p → p a = true := by
  intro l
  induction l with
  | nil => intro a h; simp [List.takeWhile] at h
  | cons b bs ih =>
    intro a h
    rw [List.takeWhile_cons] at h
    by_cases hb : p b = true
    · rw [if_pos hb] at h
      rcases List.mem_cons.mp h with h1 | h2
      · rwa [h1]
      · exact ih h2
    · rw [if_neg hb] at h
      simp at h

theorem mem_of_mem_take {α : Type} {n : Nat} {l : List α} {a : α}
    (h : a ∈ l.take n) : a ∈ l := by
  induction l generalizing n with
  | nil => simp at h
  | cons b bs ih =>
    cases n with
    | zero => simp at h
    | succ m =>
      rw [List.take_succ_cons] at h
      rcases List.mem_cons.mp h with h1 | h2
      · simp [h1]
      · exact List.mem_cons_of_mem _ (ih h2)

theorem startsWithCL_mem : ∀ {l s : List Char}, startsWithCL l s = true →
    ∀ c ∈ l, c ∈ s := by
  intro l
  induction l with
  | nil => intro s _ c hc; simp at hc
  | cons a as ih =>
    intro s h c hc
    cases s with
    | nil => simp [startsWithCL] at h
    | cons b bs =>
      unfold startsWithCL at h
      by_cases hab : a = b
      · rw [if_pos hab] at h
        rcases List.mem_cons.mp hc with h1 | h2
        · rw [h1, hab]; simp
        · exact List.mem_cons_of_mem _ (ih h c h2)
      · rw [if_neg hab] at h
        simp at h

theorem startsWithCL_len : ∀ {l s : List Char}, startsWithCL l s = true →
    l.length ≤ s.length := by
  intro l
  induction l with
  | nil => intro s _; simp
  | cons a as ih =>
    intro s h
    cases s with
    | nil => simp [startsWithCL] at h
    | cons b bs =>
      unfold startsWithCL at h
      by_cases hab : a = b
      · rw [if_pos hab] at h
        simpa using ih h
      · rw [if_neg hab] at h
        simp at h

theorem startsWithCL_refl_append : ∀ (l r : List Char),
    startsWithCL l (l ++ r) = true := by
  intro l r
  induction l with
  | nil => rfl
  | cons a as ih => simpa [startsWithCL] using ih

theorem isPrefixLL_refl_append : ∀ (a b : List (List Char)),
    isPrefixLL a (a ++ b) = true := by
  intro a b
  induction a with
  | nil => rfl
  | cons x xs ih => simpa [isPrefixLL] using ih

theorem splitSlash_no_slash : ∀ {s : List Char}, (∀ c ∈ s, c ≠ '/') →
    splitSlash s = [ s ] := by
  intro s
  induction s with
  | nil => intro _; rfl
  | cons c rest ih =>
    intro h
    unfold splitSlash
    rw [ih (fun x hx => h x (by simp [hx]))]
    simp [h c (by simp)]

/-! ### Character-class facts -/

theorem idChar_ne {c d : Char} (h : isIdChar c = true) (hd : isIdChar d = false) :
    c ≠ d := by
  intro he
  rw [he, hd] at h
  simp at h

theorem idChar_not_space {c : Char} (h : isIdChar c = true) : isPySpace c = false := by
  simp only [isIdChar, decide_eq_true_eq] at h
  apply decide_eq_false
  omega

theorem idChar_gt32 {c : Char} (h : isIdChar c = true) :
    decide (c.toNat ≤ 32) = false := by
  simp only [isIdChar, decide_eq_true_eq] at h
  apply decide_eq_false
  omega

theorem idChar_keep_unsafe {c : Char} (h : isIdChar c = true) :
    decide (c ≠ '\t' ∧ c ≠ '\r' ∧ c ≠ '\n') = true :=
  decide_eq_true ⟨idChar_ne h (by decide), idChar_ne h (by decide),
    idChar_ne h (by decide)⟩

theorem idChar_ne_colon_b {c : Char} (h : isIdChar c = true) :
    decide (c ≠ ':') = true :=
  decide_eq_true (idChar_ne h (by decide))

/-! ### Identifier-resolver lemmas -/

theorem pyStrip_of_idChars {s : List Char} (h : ∀ c ∈ s, isIdChar c = true) :
    pyStrip s = s := by
  unfold pyStrip
  rw [dropWhile_of_none (fun c hc => idChar_not_space (h c hc))]
  rw [dropWhile_of_none (fun c hc => idChar_not_space (h c (List.mem_reverse.mp hc)))]
  exact List.reverse_reverse s

theorem netlocOf_of_idChars {s : List Char} (h : ∀ c ∈ s, isIdChar c = true) :
    netlocOf s = some [] := by
  have h1 : stripC0 s = s := by
    unfold stripC0
    rw [dropWhile_of_none (fun c hc => idChar_gt32 (h c hc))]
    rw [dropWhile_of_none (fun c hc => idChar_gt32 (h c (List.mem_reverse.mp hc)))]
    exact List.reverse_reverse s
  have h2 : removeUnsafe s = s :=
    filter_of_all (fun c hc => idChar_keep_unsafe (h c hc))
  have h3 : dropScheme s = s := by
    unfold dropScheme
    rw [takeWhile_of_all (fun c hc => idChar_ne_colon_b (h c hc))]
    simp
  simp only [netlocOf, h1, h2, h3]
  rw [if_neg ?hne]
  case hne =>
    intro hcontr
    cases s with
    | nil => simp at hcontr
    | cons a rest =>
      cases rest with
      | nil => simp at hcontr
      | cons b bs =>
        simp at hcontr
        exact idChar_ne (h a (by simp)) (by decide) hcontr.1

theorem tryLit_none {lit s : List Char} {c0 : Char} (hc0 : c0 ∈ lit)
    (hbad : isIdChar c0 = false) (hall : ∀ c ∈ s, isIdChar c = true) :
    tryLit lit s = none := by
  unfold tryLit
  rw [if_neg]
  intro hsw
  have := hall c0 (startsWithCL_mem hsw c0 hc0)
  rw [hbad] at this
  simp at this

theorem tryAlts_none {alts : List (List Char)} {s : List Char}
    (hbad : ∀ lit ∈ alts, ∃ c ∈ lit, isIdChar c = false)
    (hall : ∀ c ∈ s, isIdChar c = true) : tryAlts alts s = none := by
  induction alts with
  | nil => rfl
  | cons lit more ih =>
    obtain ⟨c0, hc0, hb⟩ := hbad lit (by simp)
    unfold tryAlts
    rw [tryLit_none hc0 hb hall]
    exact ih (fun l hl => hbad l (by simp [hl]))

theorem reSearch_none {alts : List (List Char)}
    (hbad : ∀ lit ∈ alts, ∃ c ∈ lit, isIdChar c = false) :
    ∀ {s : List Char}, (∀ c ∈ s, isIdChar c = true) → reSearch alts s = none := by
  intro s
  induction s with
  | nil => intro _; rfl
  | cons c rest ih =>
    intro hall
    unfold reSearch
    rw [tryAlts_none hbad hall]
    exact ih (fun x hx => hall x (by simp [hx]))

/-! ### Claim theorems for the identifier resolver -/

/-- C8: a string of exactly 11 characters of the class `[A-Za-z0-9_-]` is
returned by `extract_video_id` unchanged. -/
theorem c8_bare_id_unchanged (s : List Char) (h1 : s.length = 11)
    (h2 : ∀ c ∈ s, isIdChar c = true) : extractVideoId s = some s := by
  have hne : s ≠ [] := by
    intro he
    rw [he] at h1
    simp at h1
  simp only [extractVideoId]
  rw [if_neg hne, pyStrip_of_idChars h2]
  have hrej : rejectByDomain s = false := by
    unfold rejectByDomain
    rw [netlocOf_of_idChars h2]
    simp
  rw [hrej]
  simp only [Bool.false_eq_true, if_false]
  simp only [patternScan, afterPat1]
  rw [reSearch_none (by decide) h2, reSearch_none (by decide) h2]
  unfold bareIdCheck
  rw [if_pos]
  unfold isValidId
  rw [h1]
  simp [List.all_eq_true]
  exact h2

/-- C8 witness: the documented scenario-A identifier is returned as-is. -/
theorem c8_bare_id_unchanged_witness :
    extractVideoId ("dQw4w9WgXcQ".data) = some ("dQw4w9WgXcQ".data) :=
  c8_bare_id_unchanged _ (by decide) (by decide)

/-- C1 counterexample: `http://foo/youtube.com/watch?v=AAAAAAAAAAA` parses
with the non-empty netloc `foo`, which is not allow-listed, yet
`extract_video_id` returns an identifier extracted from the path instead of
the failure value, because the code only rejects netlocs containing a dot. -/
theorem c1_counterexample :
    netlocOf (pyStrip ("http://foo/youtube.com/watch?v=AAAAAAAAAAA".data))
        = some ("foo".data)
    ∧ ("foo".data : List Char) ≠ []
    ∧ ("foo".data : List Char) ∉ validDomains
    ∧ extractVideoId ("http://foo/youtube.com/watch?v=AAAAAAAAAAA".data)
        = some ("AAAAAAAAAAA".data) := by
  refine ⟨by decide, by decide, by decide, by decide⟩

/-- C1 (amended): a URL whose parsed netloc is non-empty, not allow-listed,
and contains a dot is always rejected by `extract_video_id`, whatever its
path or query contain. -/
theorem c1_dotted_foreign_netloc_rejected (url nl : List Char)
    (h1 : netlocOf (pyStrip url) = some nl)
    (h2 : nl ≠ [])
    (h3 : nl ∉ validDomains)
    (h4 : '.' ∈ nl) :
    extractVideoId url = none := by
  by_cases hnil : url = []
  · simp [extractVideoId, hnil]
  · simp only [extractVideoId]
    rw [if_neg hnil]
    have hrej : rejectByDomain (pyStrip url) = true := by
      unfold rejectByDomain
      rw [h1]
      exact decide_eq_true ⟨h2, h3, h4⟩
    rw [hrej]
    simp

/-- C1 witness: a dotted foreign domain with a matching path shape is rejected. -/
theorem c1_dotted_foreign_netloc_rejected_witness :
    extractVideoId ("https://evil.com/watch?v=AAAAAAAAAAA".data) = none :=
  c1_dotted_foreign_netloc_rejected _ ("evil.com".data) (by decide) (by decide)
    (by decide) (by decide)

/-! ### Output-writer lemmas -/

theorem endsMd_append (x : List Char) : endsMd (x ++ ".md".data) = true := by
  unfold endsMd
  rw [List.reverse_append]
  have hmd : (".md".data).reverse = [ 'd', 'm', '.' ] := by decide
  rw [hmd]
  exact startsWithCL_refl_append [ 'd', 'm', '.' ] x.reverse

theorem endsMd_length {s : List Char} (h : endsMd s = true) : 3 ≤ s.length := by
  have := startsWithCL_len h
  simpa using this

theorem basenameCL_no_slash {f : List Char} {c : Char} (hc : c ∈ basenameCL f) :
    c ≠ '/' := by
  unfold basenameCL at hc
  rw [List.mem_reverse] at hc
  have := takeWhile_pred hc
  simpa using this

theorem replaceDangerous_mem {f1 : List Char} {c : Char}
    (hc : c ∈ replaceDangerous f1) : (c = '_' ∨ c ∈ f1) ∧ c ∉ dangerousChars := by
  unfold replaceDangerous at hc
  rcases List.mem_map.mp hc with ⟨b, hb, he⟩
  by_cases hbd : b ∈ dangerousChars
  · rw [if_pos hbd] at he
    refine ⟨Or.inl he.symm, ?_⟩
    rw [← he]
    decide
  · rw [if_neg hbd] at he
    exact ⟨Or.inr (he ▸ hb), he ▸ hbd⟩

theorem sanitizeBase_mem {f : List Char} {c : Char} (hc : c ∈ sanitizeBase f) :
    c ≠ '/' ∧ c ∉ dangerousChars := by
  unfold sanitizeBase at hc
  have hmd : ∀ x ∈ ".md".data, x ≠ '/' ∧ x ∉ dangerousChars := by decide
  have hbase : ∀ x, x ∈ replaceDangerous (basenameCL f) → x ≠ '/' ∧ x ∉ dangerousChars := by
    intro x hx
    rcases replaceDangerous_mem hx with ⟨hor, hnd⟩
    refine ⟨?_, hnd⟩
    rcases hor with h1 | h2
    · rw [h1]; decide
    · exact basenameCL_no_slash h2
  by_cases he : endsMd (replaceDangerous (basenameCL f)) = true
  · rw [if_pos he] at hc
    exact hbase c hc
  · rw [if_neg he] at hc
    rcases List.mem_append.mp hc with h1 | h2
    · exact hbase c h1
    · exact hmd c h2

theorem endsMd_sanitizeBase (f : List Char) : endsMd (sanitizeBase f) = true := by
  unfold sanitizeBase
  by_cases he : endsMd (replaceDangerous (basenameCL f)) = true
  · rw [if_pos he]
    exact he
  · rw [if_neg he]
    exact endsMd_append _

theorem sanitize_mem {f : List Char} {c : Char} (hc : c ∈ sanitize_filename f) :
    c ≠ '/' ∧ c ∉ dangerousChars := by
  unfold sanitize_filename at hc
  by_cases hf : f = []
  · rw [if_pos hf] at hc
    have : ∀ x ∈ "transcript.md".data, x ≠ '/' ∧ x ∉ dangerousChars := by decide
    exact this c hc
  · rw [if_neg hf] at hc
    by_cases hl : 255 < (sanitizeBase f).length
    · rw [if_pos hl] at hc
      rcases List.mem_append.mp hc with h1 | h2
      · exact sanitizeBase_mem (mem_of_mem_take (mem_of_mem_take h1))
      · have : ∀ x ∈ ".md".data, x ≠ '/' ∧ x ∉ dangerousChars := by decide
        exact this c h2
    · rw [if_neg hl] at hc
      exact sanitizeBase_mem hc

theorem sanitize_endsMd (f : List Char) : endsMd (sanitize_filename f) = true := by
  unfold sanitize_filename
  by_cases hf : f = []
  · rw [if_pos hf]
    decide
  · rw [if_neg hf]
    by_cases hl : 255 < (sanitizeBase f).length
    · rw [if_pos hl]
      exact endsMd_append _
    · rw [if_neg hl]
      exact endsMd_sanitizeBase f

theorem sanitize_length (f : List Char) : (sanitize_filename f).length ≤ 255 := by
  unfold sanitize_filename
  by_cases hf : f = []
  · rw [if_pos hf]
    decide
  · rw [if_neg hf]
    by_cases hl : 255 < (sanitizeBase f).length
    · rw [if_pos hl]
      rw [List.length_append, List.length_take, List.length_take]
      have : (".md".data).length = 3 := by decide
      rw [this]
      omega
    · rw [if_neg hl]
      omega

theorem sanitize_ne_nil (f : List Char) : sanitize_filename f ≠ [] := by
  intro he
  have := endsMd_length (sanitize_endsMd f)
  rw [he] at this
  simp at this

/-- A string already of the sanitized shape passes `sanitize_filename`
unchanged. -/
theorem sanitize_fixed {s : List Char}
    (hmem : ∀ c ∈ s, c ≠ '/' ∧ c ∉ dangerousChars)
    (hmd : endsMd s = true) (hlen : s.length ≤ 255) :
    sanitize_filename s = s := by
  have hne : s ≠ [] := by
    intro he
    have := endsMd_length hmd
    rw [he] at this
    simp at this
  have hbase : sanitizeBase s = s := by
    unfold sanitizeBase
    have h1 : basenameCL s = s := by
      unfold basenameCL
      rw [takeWhile_of_all, List.reverse_reverse]
      intro c hc
      exact decide_eq_true (hmem c (List.mem_reverse.mp hc)).1
    have h2 : replaceDangerous s = s := by
      unfold replaceDangerous
      apply map_of_id
      intro c hc
      rw [if_neg (hmem c hc).2]
    rw [h1, h2, if_pos hmd]
  unfold sanitize_filename
  rw [if_neg hne, hbase, if_neg (by omega)]

/-- C6: `sanitize_filename` is idempotent. -/
theorem c6_sanitize_idempotent (f : List Char) :
    sanitize_filename (sanitize_filename f) = sanitize_filename f :=
  sanitize_fixed (fun _c hc => sanitize_mem hc) (sanitize_endsMd f) (sanitize_length f)

/-- Resolving a sanitized name against the cwd lands exactly one component
below the cwd, inside it. -/
theorem resolve_sanitized (cwd : List (List Char)) (f : List Char) :
    resolvePath cwd (sanitize_filename f) = cwd ++ [ sanitize_filename f ]
    ∧ isPrefixLL cwd (cwd ++ [ sanitize_filename f ]) = true := by
  have hlen3 := endsMd_length (sanitize_endsMd f)
  have hsplit : splitSlash (sanitize_filename f) = [ sanitize_filename f ] :=
    splitSlash_no_slash (fun c hc => (sanitize_mem hc).1)
  constructor
  · unfold resolvePath
    rw [hsplit]
    show resolveStep cwd (sanitize_filename f) = cwd ++ [ sanitize_filename f ]
    unfold resolveStep
    rw [if_neg (sanitize_ne_nil f), if_neg, if_neg]
    · intro he
      rw [he] at hlen3
      simp at hlen3
    · intro he
      rw [he] at hlen3
      simp at hlen3
  · exact isPrefixLL_refl_append cwd _

/-- C2: `save_to_markdown` writes only at the cwd joined with the sanitized
basename (which contains no separator), and whenever the resolved target of
a name lies outside the cwd the write gate performs no write and fails. -/
theorem c2_save_confined (cwd : List (List Char)) (writeOk : Bool)
    (t s output_file u : String) (m : Option String) :
    (save_to_markdown cwd writeOk t s output_file u m).attempted
        = some (cwd ++ [ sanitize_filename output_file.data ])
    ∧ (∀ c ∈ sanitize_filename output_file.data, c ≠ '/')
    ∧ isPrefixLL cwd (cwd ++ [ sanitize_filename output_file.data ]) = true
    ∧ (save_to_markdown cwd writeOk t s output_file u m).success = writeOk
    ∧ (∀ name, isPrefixLL cwd (resolvePath cwd name) = false →
        writeGate cwd writeOk name = ⟨none, false⟩) := by
  obtain ⟨hres, hpre⟩ := resolve_sanitized cwd output_file.data
  refine ⟨?_, fun c hc => (sanitize_mem hc).1, hpre, ?_, ?_⟩
  · unfold save_to_markdown writeGate
    rw [hres, if_pos hpre]
  · unfold save_to_markdown writeGate
    rw [hres, if_pos hpre]
  · intro name hname
    unfold writeGate
    rw [if_neg]
    rw [hname]
    simp

/-- C2 witness: a traversal attempt `../../etc/passwd` is confined to the
cwd as `passwd.md`, and a name resolving outside the cwd is refused. -/
theorem c2_save_confined_witness :
    (save_to_markdown [ "home".data ] true "t" "s" "../../etc/passwd" "u" none).attempted
        = some [ "home".data, "passwd.md".data ]
    ∧ writeGate [ "home".data ] true ("..".data) = ⟨none, false⟩ := by
  have h := c2_save_confined ([ "home".data ]) true "t" "s" "../../etc/passwd" "u" none
  constructor
  · rw [h.1]
    decide
  · exact h.2.2.2.2 ("..".data) (by decide)

/-! ### Summary-generator claim -/

/-- C5: the request sent to the generation service embeds, between the fixed
template parts, exactly the first 8000 transcript characters followed by the
`...` marker when the transcript exceeds 8000 characters, and the transcript
unmodified otherwise; it is a single user message with a 1000-token cap. -/
theorem c5_prompt_truncation (llm : LLMCall → Option String) (t model : String) :
    (8000 < t.length →
      (generate_summary llm t model).2
        = ⟨model, [ ("user",
            promptPre ++ (String.mk (t.data.take 8000) ++ "...") ++ promptPost) ], 1000⟩
      ∧ (String.mk (t.data.take 8000)).length = 8000)
    ∧ (t.length ≤ 8000 →
      (generate_summary llm t model).2
        = ⟨model, [ ("user", promptPre ++ t ++ promptPost) ], 1000⟩) := by
  constructor
  · intro h
    constructor
    · unfold generate_summary truncateTranscript
      rw [if_pos h]
    · show (t.data.take 8000).length = 8000
      rw [List.length_take]
      have ht : t.length = t.data.length := rfl
      omega
  · intro h
    unfold generate_summary truncateTranscript
    rw [if_neg (by omega)]

/-- C5 witness: an 8001-character transcript is cut at 8000 plus the marker;
a short transcript passes through unchanged. -/
theorem c5_prompt_truncation_witness :
    (generate_summary (fun _ => none) (String.mk (List.replicate 8001 'a')) "m").2
      = ⟨"m", [ ("user", promptPre ++
          (String.mk ((String.mk (List.replicate 8001 'a')).data.take 8000) ++ "...")
          ++ promptPost) ], 1000⟩
    ∧ (generate_summary (fun _ => none) "hi" "m").2
      = ⟨"m", [ ("user", promptPre ++ "hi" ++ promptPost) ], 1000⟩ := by
  constructor
  · refine ((c5_prompt_truncation (fun _ => none) (String.mk (List.replicate 8001 'a')) "m").1 ?_).1
    show 8000 < (List.replicate 8001 'a').length
    rw [List.length_replicate]
    omega
  · exact (c5_prompt_truncation (fun _ => none) "hi" "m").2 (by decide)

/-! ### RPC-server claim -/

/-- C7: the server answers every line with exactly one response and keeps
going; an unparseable line gets error code -32700 with id null, and a parsed
request with an unrecognized method gets -32601 echoing the request id. -/
theorem c7_server_resilient (cwd : List (List Char))
    (svc : List Char → Option (List String)) (llm : LLMCall → Option String)
    (writeOk : Bool) (lines : List RpcLine) (i : Nat) :
    (serverRun cwd svc llm writeOk lines).length = lines.length
    ∧ (lines[i]? = some RpcLine.malformed →
        (serverRun cwd svc llm writeOk lines)[i]?
          = some ⟨none, RpcPayload.rpcError (-32700) "Parse error"⟩)
    ∧ (∀ req, lines[i]? = some (RpcLine.parsed req) →
        req.method ≠ some "tools/list" → req.method ≠ some "tools/call" →
        (serverRun cwd svc llm writeOk lines)[i]?
          = some ⟨req.id, RpcPayload.rpcError (-32601) "Method not found"⟩) := by
  refine ⟨by simp [serverRun], ?_, ?_⟩
  · intro h
    unfold serverRun
    rw [List.getElem?_map, h]
    rfl
  · intro req h h1 h2
    unfold serverRun
    rw [List.getElem?_map, h]
    show some (serverStep cwd svc llm writeOk (RpcLine.parsed req)) = _
    simp only [serverStep]
    rw [if_neg h1, if_neg h2]

/-- C7 witness: one bad line and one unknown-method line, both answered. -/
theorem c7_server_resilient_witness :
    (serverRun [] (fun _ => none) (fun _ => none) true [ RpcLine.malformed ])[0]?
      = some ⟨none, RpcPayload.rpcError (-32700) "Parse error"⟩
    ∧ (serverRun [] (fun _ => none) (fun _ => none) true
        [ RpcLine.parsed ⟨some 7, some "nope", ⟨none, ⟨none, none, none, none⟩⟩⟩ ])[0]?
      = some ⟨some 7, RpcPayload.rpcError (-32601) "Method not found"⟩ := by
  constructor
  · exact (c7_server_resilient [] (fun _ => none) (fun _ => none) true
      [ RpcLine.malformed ] 0).2.1 rfl
  · exact (c7_server_resilient [] (fun _ => none) (fun _ => none) true
      [ RpcLine.parsed ⟨some 7, some "nope", ⟨none, ⟨none, none, none, none⟩⟩⟩ ] 0).2.2
      _ rfl (by decide) (by decide)

/-! ### Pipeline spine lemmas (shared by the orchestration claims) -/

theorem save_outcome_eq (cwd : List (List Char)) (w : Bool) (t s o u : String)
    (m : Option String) :
    (save_to_markdown cwd w t s o u m).success = w
    ∧ (save_to_markdown cwd w t s o u m).attempted
        = some (cwd ++ [ sanitize_filename o.data ]) := by
  obtain ⟨hres, hpre⟩ := resolve_sanitized cwd o.data
  unfold save_to_markdown writeGate
  rw [hres, if_pos hpre]
  exact ⟨rfl, rfl⟩

theorem youtube_summary_fetch_fail (cwd : List (List Char))
    (svc : List Char → Option (List String)) (llm : LLMCall → Option String)
    (writeOk : Bool) {args : ToolArgs} {u : String} {vid : List Char}
    (hu : args.url = some u) (hne : u.isEmpty = false)
    (hv : extractVideoId u.data = some vid) (hvne : vid.isEmpty = false)
    (hf : falsyS (get_transcript (svc vid)) = true) :
    youtube_summary cwd svc llm writeOk args
      = ⟨.error "Failed to download transcript", true, false, false, none⟩ := by
  unfold youtube_summary
  rw [hu]
  simp only [Option.getD_some]
  rw [if_neg (by simp [hne]), hv]
  rw [if_neg (by simp [falsyL, hvne])]
  simp only [Option.getD_some]
  rw [if_pos hf]

theorem cliMain_fetch_fail (cwd : List (List Char))
    (svc : List Char → Option (List String)) (llm : LLMCall → Option String)
    (writeOk : Bool) {u : String} {vid : List Char}
    (stdin output model : String)
    (hne : u.isEmpty = false)
    (hv : extractVideoId u.data = some vid) (hvne : vid.isEmpty = false)
    (hf : falsyS (get_transcript (svc vid)) = true) :
    cliMain cwd svc llm writeOk (some u) stdin output model
      = ⟨1, some "Failed to download transcript", true, false, false⟩ := by
  have hurl : (if u.isEmpty = true then String.mk (pyStrip stdin.data) else u) = u := by
    rw [if_neg (by simp [hne])]
  simp only [cliMain, hurl]
  rw [if_neg (by simp [hne]), hv]
  rw [if_neg (by simp [falsyL, hvne])]
  simp only [Option.getD_some]
  rw [if_pos hf]

theorem youtube_summary_gen_fail (cwd : List (List Char))
    (svc : List Char → Option (List String)) (llm : LLMCall → Option String)
    (writeOk : Bool) {args : ToolArgs} {u : String} {vid : List Char} {ts : String}
    (hu : args.url = some u) (hne : u.isEmpty = false)
    (hv : extractVideoId u.data = some vid) (hvne : vid.isEmpty = false)
    (ht : get_transcript (svc vid) = some ts) (htne : ts.isEmpty = false)
    (hg : falsyS ((generate_summary llm ts (args.model.getD defaultModel)).1) = true) :
    youtube_summary cwd svc llm writeOk args
      = ⟨.error "Failed to generate summary", true, true, false, none⟩ := by
  unfold youtube_summary
  rw [hu]
  simp only [Option.getD_some]
  rw [if_neg (by simp [hne]), hv]
  rw [if_neg (by simp [falsyL, hvne])]
  simp only [Option.getD_some]
  rw [ht]
  rw [if_neg (by simp [falsyS, htne])]
  simp only [Option.getD_some]
  rw [if_pos hg]

theorem cliMain_gen_fail (cwd : List (List Char))
    (svc : List Char → Option (List String)) (llm : LLMCall → Option String)
    (writeOk : Bool) {u : String} {vid : List Char} {ts : String}
    (stdin output model : String)
    (hne : u.isEmpty = false)
    (hv : extractVideoId u.data = some vid) (hvne : vid.isEmpty = false)
    (ht : get_transcript (svc vid) = some ts) (htne : ts.isEmpty = false)
    (hg : falsyS ((generate_summary llm ts model).1) = true) :
    cliMain cwd svc llm writeOk (some u) stdin output model
      = ⟨1, some "Failed to generate summary", true, true, false⟩ := by
  have hurl : (if u.isEmpty = true then String.mk (pyStrip stdin.data) else u) = u := by
    rw [if_neg (by simp [hne])]
  simp only [cliMain, hurl]
  rw [if_neg (by simp [hne]), hv]
  rw [if_neg (by simp [falsyL, hvne])]
  simp only [Option.getD_some]
  rw [ht]
  rw [if_neg (by simp [falsyS, htne])]
  simp only [Option.getD_some]
  rw [if_pos hg]

theorem youtube_summary_success (cwd : List (List Char))
    (svc : List Char → Option (List String)) (llm : LLMCall → Option String)
    (writeOk : Bool) {args : ToolArgs} {u : String} {vid : List Char} {ts sm : String}
    (hu : args.url = some u) (hne : u.isEmpty = false)
    (hv : extractVideoId u.data = some vid) (hvne : vid.isEmpty = false)
    (ht : get_transcript (svc vid) = some ts) (htne : ts.isEmpty = false)
    (hs : (generate_summary llm ts (args.model.getD defaultModel)).1 = some sm)
    (hsne : sm.isEmpty = false)
    (hsave : args.save_to_file = some true) :
    youtube_summary cwd svc llm writeOk args
      = ⟨.ok ⟨String.mk vid, u, ts, sm, args.model.getD defaultModel, some writeOk,
          if writeOk then some (args.output_file.getD "transcript.md") else none⟩,
        true, true, true,
        some (cwd ++ [ sanitize_filename (args.output_file.getD "transcript.md").data ])⟩ := by
  obtain ⟨hsucc, hatt⟩ := save_outcome_eq cwd writeOk ts sm
    (args.output_file.getD "transcript.md") u (some (args.model.getD defaultModel))
  unfold youtube_summary
  rw [hu]
  simp only [Option.getD_some]
  rw [if_neg (by simp [hne]), hv]
  rw [if_neg (by simp [falsyL, hvne])]
  simp only [Option.getD_some]
  rw [ht]
  rw [if_neg (by simp [falsyS, htne])]
  simp only [Option.getD_some]
  rw [hs]
  rw [if_neg (by simp [falsyS, hsne])]
  simp only [Option.getD_some]
  rw [hsave]
  simp only [Option.getD_some, if_true]
  simp only [hsucc, hatt]

theorem youtube_summary_stage_order (cwd : List (List Char))
    (svc : List Char → Option (List String)) (llm : LLMCall → Option String)
    (writeOk : Bool) (args : ToolArgs) :
    ((youtube_summary cwd svc llm writeOk args).genCalled = true →
      (youtube_summary cwd svc llm writeOk args).fetchCalled = true)
    ∧ ((youtube_summary cwd svc llm writeOk args).saveCalled = true →
      (youtube_summary cwd svc llm writeOk args).genCalled = true) := by
  unfold youtube_summary
  by_cases h1 : (args.url.getD "").isEmpty = true
  · rw [if_pos h1]; simp
  · rw [if_neg h1]
    by_cases h2 : falsyL (extractVideoId (args.url.getD "").data) = true
    · rw [if_pos h2]; simp
    · rw [if_neg h2]
      by_cases h3 : falsyS (get_transcript
          (svc ((extractVideoId (args.url.getD "").data).getD []))) = true
      · rw [if_pos h3]; simp
      · rw [if_neg h3]
        by_cases h4 : falsyS (generate_summary llm
            ((get_transcript (svc ((extractVideoId (args.url.getD "").data).getD []))).getD "")
            (args.model.getD defaultModel)).1 = true
        · rw [if_pos h4]; simp
        · rw [if_neg h4]
          by_cases h5 : args.save_to_file.getD false = true
          · rw [if_pos h5]; simp
          · rw [if_neg h5]; simp

/-! ### Orchestration claims -/

/-- C3: when identifier resolution succeeds and the transcript fetch fails,
both front-ends stop with the transcript-fetch message and never enter the
generation or save stages; generation is only ever entered after fetch and
save only after generation. -/
theorem c3_fetch_failure_stops_pipeline (cwd : List (List Char))
    (svc : List Char → Option (List String)) (llm : LLMCall → Option String)
    (writeOk : Bool) (args : ToolArgs) (u : String) (vid : List Char)
    (output model : String)
    (hu : args.url = some u) (hne : u.isEmpty = false)
    (hv : extractVideoId u.data = some vid) (hvne : vid.isEmpty = false)
    (hf : falsyS (get_transcript (svc vid)) = true) :
    (youtube_summary cwd svc llm writeOk args).outcome
        = Except.error "Failed to download transcript"
    ∧ (youtube_summary cwd svc llm writeOk args).fetchCalled = true
    ∧ (youtube_summary cwd svc llm writeOk args).genCalled = false
    ∧ (youtube_summary cwd svc llm writeOk args).saveCalled = false
    ∧ cliMain cwd svc llm writeOk (some u) "" output model
        = ⟨1, some "Failed to download transcript", true, false, false⟩
    ∧ (∀ args' : ToolArgs,
        ((youtube_summary cwd svc llm writeOk args').genCalled = true →
          (youtube_summary cwd svc llm writeOk args').fetchCalled = true)
        ∧ ((youtube_summary cwd svc llm writeOk args').saveCalled = true →
          (youtube_summary cwd svc llm writeOk args').genCalled = true)) := by
  have h := youtube_summary_fetch_fail cwd svc llm writeOk hu hne hv hvne hf
  rw [h]
  exact ⟨rfl, rfl, rfl, rfl, cliMain_fetch_fail cwd svc llm writeOk "" output model hne hv hvne hf,
    fun args' => youtube_summary_stage_order cwd svc llm writeOk args'⟩

/-- C3 witness: a failing transcript service on a valid identifier. -/
theorem c3_fetch_failure_stops_pipeline_witness :
    (youtube_summary [] (fun _ => none) (fun _ => none) true
        ⟨some "dQw4w9WgXcQ", none, none, none⟩).outcome
      = Except.error "Failed to download transcript"
    ∧ (youtube_summary [] (fun _ => none) (fun _ => none) true
        ⟨some "dQw4w9WgXcQ", none, none, none⟩).genCalled = false := by
  have h := c3_fetch_failure_stops_pipeline [] (fun _ => none) (fun _ => none) true
    ⟨some "dQw4w9WgXcQ", none, none, none⟩ "dQw4w9WgXcQ" ("dQw4w9WgXcQ".data)
    "transcript.md" defaultModel rfl (by decide) (by decide) (by decide) rfl
  exact ⟨h.1, h.2.2.1⟩

/-- C4: when every earlier stage succeeds, saving was requested, and the
write fails, the pipeline still returns the successful result carrying the
transcript and summary with `saved_to_file = false` and no abort. -/
theorem c4_save_failure_soft (cwd : List (List Char))
    (svc : List Char → Option (List String)) (llm : LLMCall → Option String)
    (args : ToolArgs) (u : String) (vid : List Char) (ts sm : String)
    (hu : args.url = some u) (hne : u.isEmpty = false)
    (hv : extractVideoId u.data = some vid) (hvne : vid.isEmpty = false)
    (ht : get_transcript (svc vid) = some ts) (htne : ts.isEmpty = false)
    (hs : (generate_summary llm ts (args.model.getD defaultModel)).1 = some sm)
    (hsne : sm.isEmpty = false)
    (hsave : args.save_to_file = some true) :
    (youtube_summary cwd svc llm false args).outcome
      = Except.ok ⟨String.mk vid, u, ts, sm, args.model.getD defaultModel,
          some false, none⟩
    ∧ (youtube_summary cwd svc llm false args).saveCalled = true := by
  rw [youtube_summary_success cwd svc llm false hu hne hv hvne ht htne hs hsne hsave]
  exact ⟨rfl, rfl⟩

/-- C4 witness: the save stage fails after three successful stages. -/
theorem c4_save_failure_soft_witness :
    (youtube_summary [] (fun _ => some [ "hello" ]) (fun _ => some "sum") false
        ⟨some "dQw4w9WgXcQ", none, none, some true⟩).outcome
      = Except.ok ⟨"dQw4w9WgXcQ", "dQw4w9WgXcQ", "hello", "sum", defaultModel,
          some false, none⟩
    ∧ (youtube_summary [] (fun _ => some [ "hello" ]) (fun _ => some "sum") false
        ⟨some "dQw4w9WgXcQ", none, none, some true⟩).saveCalled = true :=
  c4_save_failure_soft [] (fun _ => some [ "hello" ]) (fun _ => some "sum")
    ⟨some "dQw4w9WgXcQ", none, none, some true⟩ "dQw4w9WgXcQ" ("dQw4w9WgXcQ".data)
    "hello" "sum" rfl (by decide) (by decide) (by decide) rfl (by decide) rfl
    (by decide) rfl

/-- C9: a transcript-service success with an empty segment list flattens to
the empty string, which both front-ends treat exactly like an absent
transcript; an empty generated summary is likewise reported as a generation
failure by both front-ends. -/
theorem c9_empty_is_failure (cwd : List (List Char))
    (svc : List Char → Option (List String)) (llm : LLMCall → Option String)
    (writeOk : Bool) (args : ToolArgs) (u : String) (vid : List Char)
    (output model : String)
    (hu : args.url = some u) (hne : u.isEmpty = false)
    (hv : extractVideoId u.data = some vid) (hvne : vid.isEmpty = false) :
    get_transcript (some ([] : List String)) = some ""
    ∧ (svc vid = some [] →
        (youtube_summary cwd svc llm writeOk args).outcome
          = Except.error "Failed to download transcript"
        ∧ youtube_summary cwd svc llm writeOk args
          = youtube_summary cwd (fun _ => none) llm writeOk args
        ∧ cliMain cwd svc llm writeOk (some u) "" output model
          = ⟨1, some "Failed to download transcript", true, false, false⟩)
    ∧ (∀ ts : String, get_transcript (svc vid) = some ts → ts.isEmpty = false →
        (generate_summary llm ts (args.model.getD defaultModel)).1 = some "" →
        (youtube_summary cwd svc llm writeOk args).outcome
          = Except.error "Failed to generate summary")
    ∧ (∀ ts : String, get_transcript (svc vid) = some ts → ts.isEmpty = false →
        (generate_summary llm ts model).1 = some "" →
        cliMain cwd svc llm writeOk (some u) "" output model
          = ⟨1, some "Failed to generate summary", true, true, false⟩) := by
  refine ⟨rfl, ?_, ?_, ?_⟩
  · intro hsvc
    have hf : falsyS (get_transcript (svc vid)) = true := by
      rw [hsvc]
      rfl
    have h1 := youtube_summary_fetch_fail cwd svc llm writeOk hu hne hv hvne hf
    have h2 := youtube_summary_fetch_fail cwd (fun _ => none) llm writeOk hu hne hv hvne rfl
    exact ⟨by rw [h1], by rw [h1, h2],
      cliMain_fetch_fail cwd svc llm writeOk "" output model hne hv hvne hf⟩
  · intro ts hts htne hg
    rw [youtube_summary_gen_fail cwd svc llm writeOk hu hne hv hvne hts htne (by rw [hg]; rfl)]
  · intro ts hts htne hg
    exact cliMain_gen_fail cwd svc llm writeOk "" output model hne hv hvne hts htne (by rw [hg]; rfl)

/-- C9 witness: an empty segment list and an empty generated summary. -/
theorem c9_empty_is_failure_witness :
    (youtube_summary [] (fun _ => some []) (fun _ => none) true
        ⟨some "dQw4w9WgXcQ", none, none, none⟩).outcome
      = Except.error "Failed to download transcript"
    ∧ (youtube_summary [] (fun _ => some [ "hi" ]) (fun _ => some "") true
        ⟨some "dQw4w9WgXcQ", none, none, none⟩).outcome
      = Except.error "Failed to generate summary" := by
  constructor
  · exact ((c9_empty_is_failure [] (fun _ => some []) (fun _ => none) true
      ⟨some "dQw4w9WgXcQ", none, none, none⟩ "dQw4w9WgXcQ" ("dQw4w9WgXcQ".data)
      "o" "m" rfl (by decide) (by decide) (by decide)).2.1 rfl).1
  · exact (c9_empty_is_failure [] (fun _ => some [ "hi" ]) (fun _ => some "") true
      ⟨some "dQw4w9WgXcQ", none, none, none⟩ "dQw4w9WgXcQ" ("dQw4w9WgXcQ".data)
      "o" "m" rfl (by decide) (by decide) (by decide)).2.2.1 "hi" rfl (by decide) rfl

/-- C10: on a successful save the result reports the caller's requested
filename verbatim while the write went to the sanitized name under the cwd;
whenever sanitization changes the name the two differ; and on a failed save
the output_file field is absent. -/
theorem c10_output_file_verbatim (cwd : List (List Char))
    (svc : List Char → Option (List String)) (llm : LLMCall → Option String)
    (args : ToolArgs) (u : String) (vid : List Char) (ts sm req : String)
    (hu : args.url = some u) (hne : u.isEmpty = false)
    (hv : extractVideoId u.data = some vid) (hvne : vid.isEmpty = false)
    (ht : get_transcript (svc vid) = some ts) (htne : ts.isEmpty = false)
    (hs : (generate_summary llm ts (args.model.getD defaultModel)).1 = some sm)
    (hsne : sm.isEmpty = false)
    (hsave : args.save_to_file = some true)
    (hreq : args.output_file = some req) :
    (youtube_summary cwd svc llm true args).outcome
      = Except.ok ⟨String.mk vid, u, ts, sm, args.model.getD defaultModel,
          some true, some req⟩
    ∧ (youtube_summary cwd svc llm true args).savePath
      = some (cwd ++ [ sanitize_filename req.data ])
    ∧ (sanitize_filename req.data ≠ req.data →
        String.mk (sanitize_filename req.data) ≠ req)
    ∧ (youtube_summary cwd svc llm false args).outcome
      = Except.ok ⟨String.mk vid, u, ts, sm, args.model.getD defaultModel,
          some false, none⟩ := by
  have h1 := youtube_summary_success cwd svc llm true hu hne hv hvne ht htne hs hsne hsave
  have h2 := youtube_summary_success cwd svc llm false hu hne hv hvne ht htne hs hsne hsave
  rw [hreq] at h1 h2
  simp only [Option.getD_some] at h1 h2
  refine ⟨by rw [h1]; try rfl, by rw [h1]; try rfl, ?_, by rw [h2]; try rfl⟩
  intro hd he
  exact absurd (congrArg String.data he) hd

/-- C10 witness: a traversal filename is reported verbatim but written as
`passwd.md` inside the cwd, and the two names differ. -/
theorem c10_output_file_verbatim_witness :
    (youtube_summary [] (fun _ => some [ "hello" ]) (fun _ => some "sum") true
        ⟨some "dQw4w9WgXcQ", none, some "../../etc/passwd", some true⟩).outcome
      = Except.ok ⟨"dQw4w9WgXcQ", "dQw4w9WgXcQ", "hello", "sum", defaultModel,
          some true, some "../../etc/passwd"⟩
    ∧ (youtube_summary [] (fun _ => some [ "hello" ]) (fun _ => some "sum") true
        ⟨some "dQw4w9WgXcQ", none, some "../../etc/passwd", some true⟩).savePath
      = some ([] ++ [ sanitize_filename ("../../etc/passwd".data) ])
    ∧ String.mk (sanitize_filename ("../../etc/passwd".data)) ≠ "../../etc/passwd" := by
  have h := c10_output_file_verbatim [] (fun _ => some [ "hello" ]) (fun _ => some "sum")
    ⟨some "dQw4w9WgXcQ", none, some "../../etc/passwd", some true⟩
    "dQw4w9WgXcQ" ("dQw4w9WgXcQ".data) "hello" "sum" "../../etc/passwd"
    rfl (by decide) (by decide) (by decide) rfl (by decide) rfl (by decide) rfl rfl
  exact ⟨h.1, h.2.1, h.2.2.1 (by decide)⟩

end YTS
